import Mathlib

/-
Verification development for the live-telemetry dashboard engine:
snapshot merging, bounded history buffer, command dispatch, the log
aggregator and the derived comparison metrics, embedded shallowly from
the page sources (LiveControl, AgentDecision, DeepAnalytics).
Floats are modelled by Rat, JSON-absent fields by Option.
-/

namespace TrafficDashboard

/-- Per-strategy live metric set, mirroring the rl_metrics / fixed_metrics
shape of the SimulationState interface in the LiveControl sources. -/
structure Metrics where
  waiting_time : Rat
  queue_length : Int
  throughput : Int
deriving DecidableEq, Repr

/-- Canonical simulation state kept in the status hook of LiveControl. -/
structure SimulationState where
  step : Int
  isRunning : Bool
  rl_metrics : Metrics
  fixed_metrics : Metrics
deriving DecidableEq, Repr

/-- The useState initial value in LiveControl: step 0, not running, both
metric sets zeroed. -/
def initialState : SimulationState :=
  { step := 0
    isRunning := false
    rl_metrics := { waiting_time := 0, queue_length := 0, throughput := 0 }
    fixed_metrics := { waiting_time := 0, queue_length := 0, throughput := 0 } }

/-- A decoded partial snapshot received on the socket: each top-level field of
the SimulationState shape may be present or absent (Option.none models a JSON
object that does not carry the key). -/
structure Snapshot where
  step : Option Int
  isRunning : Option Bool
  rl_metrics : Option Metrics
  fixed_metrics : Option Metrics
deriving DecidableEq, Repr

/-- The spread update setStatus(prev => (\x7b ...prev, ...data \x7d)): every
top-level field present in the decoded object replaces the field of the prior
state wholesale; absent fields are retained. -/
def mergeSnapshot (s : SimulationState) (p : Snapshot) : SimulationState :=
  { step := p.step.getD s.step
    isRunning := p.isRunning.getD s.isRunning
    rl_metrics := p.rl_metrics.getD s.rl_metrics
    fixed_metrics := p.fixed_metrics.getD s.fixed_metrics }

/-- The four top-level fields of the canonical state. -/
inductive Field
  | step
  | isRunning
  | rlMetrics
  | fixedMetrics
deriving DecidableEq

/-- Value type carried by each field. -/
def Field.type : Field → Type
  | .step => Int
  | .isRunning => Bool
  | .rlMetrics => Metrics
  | .fixedMetrics => Metrics

/-- Read one field of the canonical state. -/
def SimulationState.get (s : SimulationState) : (f : Field) → f.type
  | .step => s.step
  | .isRunning => s.isRunning
  | .rlMetrics => s.rl_metrics
  | .fixedMetrics => s.fixed_metrics

/-- Read one field of a partial snapshot; none when the key is absent. -/
def Snapshot.get? (p : Snapshot) : (f : Field) → Option f.type
  | .step => p.step
  | .isRunning => p.isRunning
  | .rlMetrics => p.rl_metrics
  | .fixedMetrics => p.fixed_metrics

/-- One charted point of the live history, as built in the onmessage handler:
step is read off the incoming data object (undefined when the key is absent),
the two waits off data.rl_metrics.waiting_time / data.fixed_metrics.waiting_time. -/
structure HistorySample where
  step : Option Int
  rl_wait : Rat
  fixed_wait : Rat
deriving DecidableEq, Repr

/-- setDataHistory(prev => ... newData.slice(-50)): append the new point at the
end, then keep only the last 50 points. -/
def appendHistory (prev : List HistorySample) (x : HistorySample) : List HistorySample :=
  let newData := prev ++ [x]
  newData.drop (newData.length - 50)

/-- An incoming socket message as the handler sees it: JSON.parse either throws
(invalid), yields a non-object value (whose spread adds no state field and whose
property reads are undefined), or yields a decoded object. -/
inductive WsMessage
  | invalid
  | nonObject
  | object (p : Snapshot)
deriving DecidableEq

/-- Result of running the onmessage handler: the canonical state, the history
list, and whether any user-visible alert was raised (the handler contains no
alert call, so this is false on every path). -/
structure MsgOutcome where
  status : SimulationState
  history : List HistorySample
  alerted : Bool
deriving DecidableEq, Repr

/-- The ws.onmessage handler of LiveControl (the variant that also maintains
dataHistory). JSON.parse throwing aborts the handler before any update; a
non-object value spreads no field into the state and its property reads are
undefined, so the history updater throws before appending; a decoded object is
spread into the state, and when data.rl_metrics and data.fixed_metrics are
present a sample built from the data object itself is appended (reading
waiting_time off an absent metrics object throws, appending nothing). -/
def onmessage (st : SimulationState) (hist : List HistorySample) (m : WsMessage) :
    MsgOutcome :=
  match m with
  | .invalid => ⟨st, hist, false⟩
  | .nonObject => ⟨st, hist, false⟩
  | .object p =>
    let st' := mergeSnapshot st p
    match p.rl_metrics, p.fixed_metrics with
    | some rm, some fm =>
      ⟨st', appendHistory hist ⟨p.step, rm.waiting_time, fm.waiting_time⟩, false⟩
    | _, _ => ⟨st', hist, false⟩

/-- The three control actions handleControl dispatches. -/
inductive ControlAction
  | start
  | stop
  | reset
deriving DecidableEq

/-- Result of one handleControl call: the state and history afterwards, whether
the failure was surfaced to the caller (rethrown or shown in the UI), and
whether it was written to the console. -/
structure CommandOutcome where
  status : SimulationState
  history : List HistorySample
  errorSurfaced : Bool
  loggedToConsole : Bool
deriving DecidableEq, Repr

/-- handleControl of LiveControl: awaits the backend request and only on
success applies the local transition (start sets isRunning, stop clears it,
reset restores the zero state and clears the history). A failed request jumps
to the catch block, which only calls console.error: nothing was mutated before
the await, nothing is rethrown and no alert is raised. -/
def handleControl (st : SimulationState) (hist : List HistorySample)
    (a : ControlAction) (requestOk : Bool) : CommandOutcome :=
  if requestOk then
    match a with
    | .start => ⟨{ st with isRunning := true }, hist, false, false⟩
    | .stop => ⟨{ st with isRunning := false }, hist, false, false⟩
    | .reset => ⟨initialState, [], false, false⟩
  else
    ⟨st, hist, false, true⟩

/-- The EFFICIENCY GAIN card of LiveControl: guarded percentage reduction in
waiting time, 0 when the fixed-time waiting time is not positive. -/
def efficiencyGain (st : SimulationState) : Rat :=
  if st.fixed_metrics.waiting_time > 0 then
    (st.fixed_metrics.waiting_time - st.rl_metrics.waiting_time) /
      st.fixed_metrics.waiting_time * 100
  else 0

/-- Sixty concrete samples, one per merge, for the C2 scenario. -/
def sixtySamples : List HistorySample :=
  (List.range 60).map (fun i => ⟨some (i + 1 : Int), i, 2 * i⟩)

/-- A running state used as the concrete pre-call state of the C4
counterexample. -/
def runningState : SimulationState := { initialState with isRunning := true }

/-- Concrete state with zero fixed waiting time and nonzero rl waiting time. -/
def stZeroFixed : SimulationState :=
  { initialState with rl_metrics := { waiting_time := 7, queue_length := 1, throughput := 2 } }

/-- Aggregate statistics of one strategy in the comparison summary
(DeepAnalytics ComparisonMetrics interface). -/
structure AggregateStats where
  avg_waiting_time : Rat
  avg_queue_length : Rat
  total_throughput : Rat
deriving DecidableEq, Repr

/-- Improvement percentages as provided by the backend. -/
structure Improvement where
  waiting_time_reduction : Rat
  queue_length_reduction : Rat
  throughput_increase : Rat
deriving DecidableEq, Repr

/-- The four parallel time series of the comparison summary. -/
structure TimeSeries where
  rl_waiting : List Rat
  fixed_waiting : List Rat
  rl_queue : List Rat
  fixed_queue : List Rat
deriving DecidableEq, Repr

/-- The comparison summary polled by DeepAnalytics. -/
structure ComparisonMetrics where
  rl : AggregateStats
  fixed : AggregateStats
  improvement : Improvement
  time_series : TimeSeries
deriving DecidableEq, Repr

/-- Math.max(metrics.fixed.avg_waiting_time, metrics.rl.avg_waiting_time, 1). -/
def maxWait (m : ComparisonMetrics) : Rat :=
  max (max m.fixed.avg_waiting_time m.rl.avg_waiting_time) 1

/-- Math.max(metrics.fixed.avg_queue_length, metrics.rl.avg_queue_length, 1). -/
def maxQueue (m : ComparisonMetrics) : Rat :=
  max (max m.fixed.avg_queue_length m.rl.avg_queue_length) 1

/-- Math.max(metrics.fixed.total_throughput, metrics.rl.total_throughput, 1). -/
def maxThroughput (m : ComparisonMetrics) : Rat :=
  max (max m.fixed.total_throughput m.rl.total_throughput) 1

/-- One radar axis entry: a is the Fixed Time score (dataKey A), b the RL
score (dataKey B). -/
structure RadarEntry where
  a : Rat
  b : Rat
  fullMark : Rat
deriving DecidableEq, Repr, Inhabited

/-- The radarData array of DeepAnalytics: normalized 0-100 scores per axis,
inverted (100 minus share of the max) for the lower-is-better axes wait and
queue, direct share of the max for throughput. -/
def radarData (m : ComparisonMetrics) : List RadarEntry :=
  [ { a := 100 - m.fixed.avg_waiting_time / maxWait m * 100
      b := 100 - m.rl.avg_waiting_time / maxWait m * 100
      fullMark := 100 }
  , { a := m.fixed.total_throughput / maxThroughput m * 100
      b := m.rl.total_throughput / maxThroughput m * 100
      fullMark := 100 }
  , { a := 100 - m.fixed.avg_queue_length / maxQueue m * 100
      b := 100 - m.rl.avg_queue_length / maxQueue m * 100
      fullMark := 100 } ]

/-- The comparison summary with every statistic zero: the both-values-zero
case the max(..., 1) guard exists for. -/
def mZero : ComparisonMetrics :=
  { rl := { avg_waiting_time := 0, avg_queue_length := 0, total_throughput := 0 }
    fixed := { avg_waiting_time := 0, avg_queue_length := 0, total_throughput := 0 }
    improvement := { waiting_time_reduction := 0, queue_length_reduction := 0
                     throughput_increase := 0 }
    time_series := { rl_waiting := [], fixed_waiting := [], rl_queue := [], fixed_queue := [] } }

/-- Kind tag of a decision log entry (the optional type field). -/
inductive LogKind
  | rlDecision
  | emergency
  | emergencyMaintain
  | detection
deriving DecidableEq, Repr

/-- One decision-narrative record as fetched by AgentDecision. -/
structure DecisionLog where
  step : Int
  tls_id : String
  action : Int
  waiting_time : Rat
  queue_length : Int
  kind : Option LogKind
  message : Option String
  vehicle_id : Option String
deriving DecidableEq, Repr

/-- One fetchLogs poll of AgentDecision: a successful response replaces the
collection wholesale with its first 100 entries (response.data.slice(0, 100));
a failed fetch reaches the catch block and leaves the collection as it was. -/
def fetchLogs (logs : List DecisionLog) (response : Option (List DecisionLog)) :
    List DecisionLog :=
  match response with
  | some data => data.take 100
  | none => logs

/-- JS truthy-or for numbers: x || d is d when x is undefined (absent index)
or 0, and x itself otherwise (NaN has no rational counterpart). -/
def jsNumOr (v : Option Rat) (d : Rat) : Rat :=
  match v with
  | some x => if x = 0 then d else x
  | none => d

/-- One charted point of the wait-time trend in DeepAnalytics. -/
structure TrendPoint where
  time : Nat
  fixed : Rat
  rl : Rat
deriving DecidableEq, Repr

/-- The trendData derivation of DeepAnalytics: one point per entry of
time_series.fixed_waiting, labelled i * 10, carrying the fixed value and
time_series.rl_waiting[i] || 0. -/
def trendData (ts : TimeSeries) : List TrendPoint :=
  ts.fixed_waiting.enum.map
    (fun v => { time := v.1 * 10, fixed := v.2, rl := jsNumOr ts.rl_waiting[v.1]? 0 })

/-- A snapshot carrying both metric sets but no step key, for the C8
counterexample. -/
def snapNoStep : Snapshot :=
  { step := none
    isRunning := some true
    rl_metrics := some { waiting_time := 2, queue_length := 1, throughput := 10 }
    fixed_metrics := some { waiting_time := 3, queue_length := 2, throughput := 9 } }

/-- A state whose step is 5, the pre-merge state of the C8 counterexample. -/
def stStep5 : SimulationState := { initialState with step := 5 }

/-- The full feed snapshot of the C8 scenario: step 10, running, rl waiting
time 5.2, fixed waiting time 9.8. -/
def snapFull : Snapshot :=
  { step := some 10
    isRunning := some true
    rl_metrics := some { waiting_time := 5.2, queue_length := 4, throughput := 120 }
    fixed_metrics := some { waiting_time := 9.8, queue_length := 7, throughput := 100 } }

/-- Concrete time series whose rl_waiting is shorter than fixed_waiting, for
the C10 witness. -/
def tsDemo : TimeSeries :=
  { rl_waiting := [5], fixed_waiting := [1, 2, 3], rl_queue := [], fixed_queue := [] }

section Theorems

/-- Helper: one append never leaves more than 50 samples. -/
lemma appendHistory_length_le (h : List HistorySample) (x : HistorySample) :
    (appendHistory h x).length ≤ 50 := by
  simp only [appendHistory, List.length_drop, List.length_append, List.length_cons,
    List.length_nil]
  omega

/-- Helper: an append keeps exactly the last 50 elements of the extended list. -/
lemma appendHistory_eq_drop (h : List HistorySample) (x : HistorySample) :
    appendHistory h x = (h ++ [x]).drop ((h.length + 1) - 50) := by
  simp [appendHistory]

/-- Helper: folding appends over a starting buffer of at most 50 samples keeps
the last 50 samples of the full concatenation. -/
lemma foldl_appendHistory (xs : List HistorySample) :
    ∀ h : List HistorySample, h.length ≤ 50 →
      List.foldl appendHistory h xs = (h ++ xs).drop ((h.length + xs.length) - 50) := by
  induction xs with
  | nil =>
    intro h hh
    simp [List.drop_eq_nil_of_le, Nat.sub_eq_zero_of_le hh]
  | cons x xs ih =>
    intro h hh
    have hlen : (appendHistory h x).length ≤ 50 := appendHistory_length_le h x
    have hstep := ih (appendHistory h x) hlen
    rw [List.foldl_cons, hstep, appendHistory_eq_drop]
    have hsplit : List.drop ((h.length + 1) - 50) (h ++ [x]) ++ xs
        = List.drop ((h.length + 1) - 50) (h ++ [x] ++ xs) :=
      (List.drop_append_of_le_length (by
        simp only [List.length_append, List.length_cons, List.length_nil]; omega)).symm
    rw [hsplit, List.drop_drop]
    rw [show h ++ [x] ++ xs = h ++ x :: xs by simp]
    congr 1
    simp only [List.length_drop, List.length_append, List.length_cons, List.length_nil]
    omega

/-- C1: merging a decoded partial snapshot onto the current state is shallow,
field-level and last-write-wins: each top-level field of the result equals the
snapshot's value when the field is present in the snapshot and the prior
state's value when it is absent; quantifying over all four fields, no other
field changes. -/
theorem merge_last_write_wins (s : SimulationState) (p : Snapshot) (f : Field) :
    (mergeSnapshot s p).get f = (p.get? f).getD (s.get f) := by
  cases f <;> rfl

/-- C2: the history buffer never exceeds 50 samples after any append; the
buffer obtained by appending any sequence of samples to the empty buffer holds
exactly the most recent 50 in chronological order (the suffix the drop leaves);
in particular 60 sequential appends leave the buffer holding the samples of
appends 11 through 60 (drop 10 of the appended sequence). -/
theorem history_buffer_bound_and_contents :
    (∀ (h : List HistorySample) (x : HistorySample), (appendHistory h x).length ≤ 50) ∧
    (∀ xs : List HistorySample,
      List.foldl appendHistory [] xs = xs.drop (xs.length - 50)) ∧
    (∀ xs : List HistorySample, xs.length = 60 →
      List.foldl appendHistory [] xs = xs.drop 10) := by
  have hfold : ∀ xs : List HistorySample,
      List.foldl appendHistory [] xs = xs.drop (xs.length - 50) := by
    intro xs
    have := foldl_appendHistory xs [] (by simp)
    simpa using this
  refine ⟨appendHistory_length_le, hfold, ?_⟩
  intro xs hlen
  rw [hfold xs, hlen]

/-- C2 witness: on the concrete 60-sample sequence, the buffer holds exactly
the samples of appends 11 through 60. -/
theorem history_buffer_bound_and_contents_witness :
    sixtySamples.length = 60 ∧
    List.foldl appendHistory [] sixtySamples = sixtySamples.drop 10 :=
  ⟨rfl, history_buffer_bound_and_contents.2.2 sixtySamples rfl⟩

/-- C3: a streaming message that fails to decode as an object (JSON.parse
throws, or yields a non-object value) leaves the canonical state and the
history exactly as they were, the message is discarded, and no user-visible
alert is ever produced by the handler; moreover no message leaves the state
partially updated: after any message the state is either the prior state or
the full field-level merge of a decoded object. -/
theorem decode_failure_state_unchanged :
    (∀ (st : SimulationState) (hist : List HistorySample),
      onmessage st hist .invalid = ⟨st, hist, false⟩) ∧
    (∀ (st : SimulationState) (hist : List HistorySample),
      onmessage st hist .nonObject = ⟨st, hist, false⟩) ∧
    (∀ (st : SimulationState) (hist : List HistorySample) (m : WsMessage),
      (onmessage st hist m).alerted = false) ∧
    (∀ (st : SimulationState) (hist : List HistorySample) (m : WsMessage),
      (onmessage st hist m).status = st ∨
        ∃ p, m = WsMessage.object p ∧
          (onmessage st hist m).status = mergeSnapshot st p) := by
  refine ⟨fun st hist => rfl, fun st hist => rfl, ?_, ?_⟩
  · intro st hist m
    cases m with
    | invalid => rfl
    | nonObject => rfl
    | object p =>
      simp only [onmessage]
      rcases p.rl_metrics with _ | rm <;> rcases p.fixed_metrics with _ | fm <;> rfl
  · intro st hist m
    cases m with
    | invalid => exact Or.inl rfl
    | nonObject => exact Or.inl rfl
    | object p =>
      refine Or.inr ⟨p, rfl, ?_⟩
      simp only [onmessage]
      rcases p.rl_metrics with _ | rm <;> rcases p.fixed_metrics with _ | fm <;> rfl

/-- C4 counterexample: when the backend request of stop() fails, the state is
indeed left unchanged, but the failure is NOT surfaced to the caller — the
catch block only writes to the console — so the claimed conjunction fails at
this concrete call. -/
theorem stop_failure_not_surfaced :
    ¬ ((handleControl runningState [] .stop false).status = runningState ∧
       (handleControl runningState [] .stop false).errorSurfaced = true) := by
  decide

/-- C4 amended: a command dispatch whose backend request fails leaves the local
state and history exactly at their pre-call values (no mutation is attempted
before confirmation — in particular a failed stop() leaves isRunning
unchanged), and the failure is caught and logged to the console rather than
surfaced to the caller. -/
theorem command_failure_state_unchanged (st : SimulationState)
    (hist : List HistorySample) (a : ControlAction) :
    handleControl st hist a false = ⟨st, hist, false, true⟩ := rfl

/-- C5: for non-negative waiting times, the efficiency gain equals
(fixed − rl) / fixed × 100 whenever the fixed waiting time is positive, and is
exactly 0 when the fixed waiting time is 0 regardless of the rl value; the
division is only taken under the positivity guard, so the value is a plain
rational on every input (never a division by zero — no NaN or Infinity
branch is reachable). -/
theorem efficiency_gain_zero_safe (st : SimulationState)
    (_hf : 0 ≤ st.fixed_metrics.waiting_time)
    (_hr : 0 ≤ st.rl_metrics.waiting_time) :
    (st.fixed_metrics.waiting_time = 0 → efficiencyGain st = 0) ∧
    (0 < st.fixed_metrics.waiting_time →
      efficiencyGain st =
        (st.fixed_metrics.waiting_time - st.rl_metrics.waiting_time) /
          st.fixed_metrics.waiting_time * 100) := by
  constructor
  · intro h0
    simp [efficiencyGain, h0]
  · intro hpos
    simp [efficiencyGain, hpos]

/-- C5 witness: at the concrete state with fixed waiting time 0 and rl waiting
time 7, the efficiency gain is exactly 0. -/
theorem efficiency_gain_zero_safe_witness : efficiencyGain stZeroFixed = 0 :=
  (efficiency_gain_zero_safe stZeroFixed (by decide) (by decide)).1 (by decide)

/-- C7: a successful reset() restores the canonical state to its zero value —
step 0, isRunning false, both metric sets zeroed — and clears the history
buffer; in the sequential event model every subsequent read sees exactly this
state until the next mutation. -/
theorem reset_zeroes_state (st : SimulationState) (hist : List HistorySample) :
    (handleControl st hist .reset true).status.step = 0 ∧
    (handleControl st hist .reset true).status.isRunning = false ∧
    (handleControl st hist .reset true).status.rl_metrics
      = { waiting_time := 0, queue_length := 0, throughput := 0 } ∧
    (handleControl st hist .reset true).status.fixed_metrics
      = { waiting_time := 0, queue_length := 0, throughput := 0 } ∧
    (handleControl st hist .reset true).history = [] :=
  ⟨rfl, rfl, rfl, rfl, rfl⟩

/-- Helper: a non-negative value divided by the guarded maximum, times 100,
lies in [0, 100]. -/
lemma norm_share_bounds (v a b : Rat) (hv : 0 ≤ v) (hle : v ≤ max (max a b) 1) :
    0 ≤ v / max (max a b) 1 * 100 ∧ v / max (max a b) 1 * 100 ≤ 100 := by
  have hM : (0 : Rat) < max (max a b) 1 := lt_of_lt_of_le one_pos (le_max_right _ _)
  constructor
  · exact mul_nonneg (div_nonneg hv hM.le) (by norm_num)
  · have h1 : v / max (max a b) 1 ≤ 1 := (div_le_one hM).mpr hle
    calc v / max (max a b) 1 * 100 ≤ 1 * 100 :=
          mul_le_mul_of_nonneg_right h1 (by norm_num)
      _ = 100 := one_mul 100

/-- C6: for non-negative aggregate inputs, every normalized radar score —
100 × (1 − value / max(fixed, rl, 1)) on the lower-is-better wait and queue
axes and 100 × value / max(fixed, rl, 1) on the throughput axis — lies within
[0, 100], including when both compared values are zero (the max(..., 1) guard
keeps the denominator at least 1). -/
theorem radar_scores_in_range (m : ComparisonMetrics)
    (h1 : 0 ≤ m.fixed.avg_waiting_time) (h2 : 0 ≤ m.rl.avg_waiting_time)
    (h3 : 0 ≤ m.fixed.avg_queue_length) (h4 : 0 ≤ m.rl.avg_queue_length)
    (h5 : 0 ≤ m.fixed.total_throughput) (h6 : 0 ≤ m.rl.total_throughput) :
    ∀ e ∈ radarData m, 0 ≤ e.a ∧ e.a ≤ 100 ∧ 0 ≤ e.b ∧ e.b ≤ 100 := by
  have hwA := norm_share_bounds m.fixed.avg_waiting_time m.fixed.avg_waiting_time
    m.rl.avg_waiting_time h1 (le_trans (le_max_left _ _) (le_max_left _ _))
  have hwB := norm_share_bounds m.rl.avg_waiting_time m.fixed.avg_waiting_time
    m.rl.avg_waiting_time h2 (le_trans (le_max_right _ _) (le_max_left _ _))
  have hqA := norm_share_bounds m.fixed.avg_queue_length m.fixed.avg_queue_length
    m.rl.avg_queue_length h3 (le_trans (le_max_left _ _) (le_max_left _ _))
  have hqB := norm_share_bounds m.rl.avg_queue_length m.fixed.avg_queue_length
    m.rl.avg_queue_length h4 (le_trans (le_max_right _ _) (le_max_left _ _))
  have htA := norm_share_bounds m.fixed.total_throughput m.fixed.total_throughput
    m.rl.total_throughput h5 (le_trans (le_max_left _ _) (le_max_left _ _))
  have htB := norm_share_bounds m.rl.total_throughput m.fixed.total_throughput
    m.rl.total_throughput h6 (le_trans (le_max_right _ _) (le_max_left _ _))
  intro e he
  simp only [radarData, List.mem_cons, List.not_mem_nil, or_false] at he
  rcases he with rfl | rfl | rfl
  · dsimp only [maxWait]
    exact ⟨by linarith [hwA.2], by linarith [hwA.1], by linarith [hwB.2],
      by linarith [hwB.1]⟩
  · dsimp only [maxThroughput]
    exact ⟨htA.1, htA.2, htB.1, htB.2⟩
  · dsimp only [maxQueue]
    exact ⟨by linarith [hqA.2], by linarith [hqA.1], by linarith [hqB.2],
      by linarith [hqB.1]⟩

/-- C6 witness: on the all-zero comparison summary (both compared values zero
on every axis) the first radar entry's scores are within [0, 100]. -/
theorem radar_scores_in_range_witness :
    0 ≤ ((radarData mZero).getD 0 default).a ∧
      ((radarData mZero).getD 0 default).a ≤ 100 :=
  ⟨(radar_scores_in_range mZero (by decide) (by decide) (by decide) (by decide)
      (by decide) (by decide) ((radarData mZero).getD 0 default)
      (List.mem_cons_self _ _)).1,
   (radar_scores_in_range mZero (by decide) (by decide) (by decide) (by decide)
      (by decide) (by decide) ((radarData mZero).getD 0 default)
      (List.mem_cons_self _ _)).2.1⟩

/-- C8 counterexample: merging a snapshot that carries both metric sets but no
step key appends a sample whose step is undefined (taken off the incoming data
object), while the post-merge state keeps the prior step 5 — so the appended
sample is not derived from the post-merge canonical state. -/
theorem history_sample_not_from_post_merge_state :
    (onmessage stStep5 [] (.object snapNoStep)).history ≠
      [{ step := some (onmessage stStep5 [] (.object snapNoStep)).status.step
         rl_wait :=
           (onmessage stStep5 [] (.object snapNoStep)).status.rl_metrics.waiting_time
         fixed_wait :=
           (onmessage stStep5 [] (.object snapNoStep)).status.fixed_metrics.waiting_time }] := by
  decide

/-- C8 amended: after a merge of every snapshot carrying rl_metrics and
fixed_metrics — step present or absent — exactly one sample, built from the
incoming snapshot's own step and waiting-time fields, is appended to the ring
buffer; the two waiting times always coincide with the post-merge canonical
state's, and whenever the snapshot also carries step (as every full feed
snapshot does), the whole sample coincides with the one derived from the
post-merge canonical state's step and waiting times. -/
theorem merge_appends_history_sample (st : SimulationState)
    (hist : List HistorySample) (p : Snapshot) (rm fm : Metrics)
    (hr : p.rl_metrics = some rm) (hf : p.fixed_metrics = some fm) :
    ((onmessage st hist (.object p)).history =
      appendHistory hist
        { step := p.step
          rl_wait := rm.waiting_time
          fixed_wait := fm.waiting_time }) ∧
    ((mergeSnapshot st p).rl_metrics.waiting_time = rm.waiting_time ∧
      (mergeSnapshot st p).fixed_metrics.waiting_time = fm.waiting_time) ∧
    (∀ n : Int, p.step = some n →
      (onmessage st hist (.object p)).history =
        appendHistory hist
          { step := some (mergeSnapshot st p).step
            rl_wait := (mergeSnapshot st p).rl_metrics.waiting_time
            fixed_wait := (mergeSnapshot st p).fixed_metrics.waiting_time }) := by
  refine ⟨?_, ⟨?_, ?_⟩, ?_⟩
  · simp [onmessage, hr, hf]
  · simp [mergeSnapshot, hr]
  · simp [mergeSnapshot, hf]
  · intro n hn
    simp [onmessage, mergeSnapshot, hr, hf, hn]

/-- C8 witness: the feed scenario — a full snapshot with step 10, rl waiting
time 5.2 and fixed waiting time 9.8 merged onto the initial state appends
exactly the sample (10, 5.2, 9.8), built from the snapshot's own fields and
equal to the sample derived from the post-merge state. -/
theorem merge_appends_history_sample_witness :
    (onmessage initialState [] (.object snapFull)).history =
      appendHistory []
        { step := snapFull.step, rl_wait := 5.2, fixed_wait := 9.8 } ∧
    (onmessage initialState [] (.object snapFull)).history =
      appendHistory []
        { step := some (mergeSnapshot initialState snapFull).step
          rl_wait := (mergeSnapshot initialState snapFull).rl_metrics.waiting_time
          fixed_wait := (mergeSnapshot initialState snapFull).fixed_metrics.waiting_time } ∧
    (onmessage initialState [] (.object snapFull)).history =
      [{ step := some 10, rl_wait := 5.2, fixed_wait := 9.8 }] :=
  ⟨(merge_appends_history_sample initialState [] snapFull
      { waiting_time := 5.2, queue_length := 4, throughput := 120 }
      { waiting_time := 9.8, queue_length := 7, throughput := 100 } rfl rfl).1,
   (merge_appends_history_sample initialState [] snapFull
      { waiting_time := 5.2, queue_length := 4, throughput := 120 }
      { waiting_time := 9.8, queue_length := 7, throughput := 100 } rfl rfl).2.2 10 rfl,
   by norm_num [onmessage, snapFull, initialState, appendHistory, mergeSnapshot]⟩

/-- Helper: folding polls over a collection of at most 100 entries keeps it at
most 100 entries. -/
lemma fetchLogs_foldl_le (polls : List (Option (List DecisionLog))) :
    ∀ logs : List DecisionLog, logs.length ≤ 100 →
      (List.foldl fetchLogs logs polls).length ≤ 100 := by
  induction polls with
  | nil => intro logs h; simpa using h
  | cons p ps ih =>
    intro logs h
    rw [List.foldl_cons]
    apply ih
    cases p with
    | none => simpa [fetchLogs] using h
    | some data => simp only [fetchLogs, List.length_take]; omega

/-- C9: over any sequence of polls the log collection never exceeds 100
entries; a successful poll replaces the collection wholesale with the first
100 entries of the fetched newest-first sequence, and a failed poll leaves the
previous collection intact. -/
theorem logs_bounded_and_replaced :
    (∀ polls : List (Option (List DecisionLog)),
      (List.foldl fetchLogs [] polls).length ≤ 100) ∧
    (∀ logs data : List DecisionLog, fetchLogs logs (some data) = data.take 100) ∧
    (∀ logs : List DecisionLog, fetchLogs logs none = logs) :=
  ⟨fun polls => fetchLogs_foldl_le polls [] (by simp), fun _ _ => rfl, fun _ => rfl⟩

/-- C10: the wait-time trend derivation is total even on non-parallel series:
it yields exactly one point per element of time_series.fixed_waiting, each
labelled i * 10 and carrying the fixed value; where rl_waiting has no element
at that index, or a falsy (zero) element, the point's rl value is 0, and where
it has a non-zero element the point carries that element. -/
theorem trend_total_per_fixed_point (ts : TimeSeries) :
    (trendData ts).length = ts.fixed_waiting.length ∧
    ∀ i, i < ts.fixed_waiting.length →
      ((trendData ts).getD i { time := 0, fixed := 0, rl := 0 }).time = i * 10 ∧
      ((trendData ts).getD i { time := 0, fixed := 0, rl := 0 }).fixed
        = ts.fixed_waiting.getD i 0 ∧
      ((ts.rl_waiting[i]? = none ∨ ts.rl_waiting[i]? = some 0) →
        ((trendData ts).getD i { time := 0, fixed := 0, rl := 0 }).rl = 0) ∧
      (∀ v : Rat, ts.rl_waiting[i]? = some v → v ≠ 0 →
        ((trendData ts).getD i { time := 0, fixed := 0, rl := 0 }).rl = v) := by
  constructor
  · simp [trendData, List.enum_length]
  · intro i hi
    have hfix : ts.fixed_waiting[i]? = some ts.fixed_waiting[i] :=
      List.getElem?_eq_getElem hi
    have hpt : (trendData ts).getD i { time := 0, fixed := 0, rl := 0 } =
        { time := i * 10, fixed := ts.fixed_waiting[i]
          rl := jsNumOr ts.rl_waiting[i]? 0 } := by
      rw [List.getD_eq_getElem?_getD, trendData, List.getElem?_map, List.getElem?_enum,
        hfix]
      rfl
    rw [hpt]
    refine ⟨rfl, ?_, ?_, ?_⟩
    · simp [List.getD_eq_getElem?_getD, hfix]
    · rintro (h | h) <;> simp [jsNumOr, h]
    · intro v hv hne
      simp [jsNumOr, hv, hne]

/-- C10 witness: with fixed_waiting of length 3 and rl_waiting of length 1,
the point at index 1 exists and its rl value is 0. -/
theorem trend_total_witness :
    ((trendData tsDemo).getD 1 { time := 0, fixed := 0, rl := 0 }).rl = 0 :=
  ((trend_total_per_fixed_point tsDemo).2 1 (by decide)).2.2.1 (Or.inl (by decide))

end Theorems

end TrafficDashboard
